import Mathlib

/-!
Verification development for the rag-multiagent-qa repository.

The Python source is shallowly embedded: pure control flow becomes Lean
functions, HTTP and filesystem effects become explicit outcome parameters,
and numeric payloads that the code never inspects are kept as type
parameters.  Definitions follow the source files:
  src/agents/qa_agent.py           (embedding provider, index, query)
  src/agents/data_loader_agent.py  (document chunking driver)
  src/agents/multi_agent_manager.py (manager, group chat config, reset)
  src/config.py                    (configuration constants)
The chunking algorithm itself and the group-chat loop live in third-party
libraries (llama_index, autogen) outside the repository; those parts are
modelled from the specification and are marked as such in doc comments.
-/

namespace RagQA

variable {α : Type} {β : Type} {ι : Type}

/-- Outcome of the HTTP POST to the embeddings endpoint, as seen by
`CustomOllamaEmbedding._get_text_embedding` (src/agents/qa_agent.py):
either a response arrived carrying an HTTP status code and the parsed
`embedding` JSON array, or the call raised an exception (network error,
timeout, malformed body).  Vector components are a type parameter because
the code never inspects them. -/
inductive EmbedHttpOutcome (β : Type) where
  | response (status : Nat) (embedding : List β)
  | failure (msg : String)

/-- Model of `np.random.rand n`: a list of `n` draws from a pseudo-random
source `rand`. -/
def npRandomRand (rand : Nat → β) (n : Nat) : List β :=
  (List.range n).map rand

/-- `CustomOllamaEmbedding._get_text_embedding` (src/agents/qa_agent.py,
lines 50-63 and the identical copy at lines 147-160): on a 200 response
the parsed `embedding` array is returned as-is; on any other status, or
on any exception, a warning is printed and `list(np.random.rand(384))`
is returned instead.  The failure is never re-raised. -/
def getTextEmbedding (outcome : EmbedHttpOutcome β) (rand : Nat → β) : List β :=
  match outcome with
  | .response status emb => if status = 200 then emb else npRandomRand rand 384
  | .failure _ => npRandomRand rand 384

/-- Whether `_get_text_embedding` takes the fallback branch (and hence
prints its degradation warning) for a given HTTP outcome. -/
def usedFallback (outcome : EmbedHttpOutcome β) : Bool :=
  match outcome with
  | .response status _ => if status = 200 then false else true
  | .failure _ => true

/-- Dimension of the vector the provider returns for a given outcome:
the server-supplied length on a 200 response, 384 on the fallback path. -/
def providerDim (outcome : EmbedHttpOutcome β) : Nat :=
  match outcome with
  | .response status emb => if status = 200 then emb.length else 384
  | .failure _ => 384

/-- An HTTP POST request as the `requests` library receives it.
`timeout = none` means the `timeout` keyword argument was not passed,
in which case `requests` waits indefinitely. -/
structure HttpPost where
  url : String
  bodyModel : String
  bodyPrompt : String
  timeout : Option Nat

/-- The POST issued by `CustomOllamaEmbedding._get_text_embedding`
(src/agents/qa_agent.py lines 52-55):
`requests.post(f"<base_url>/api/embeddings", json=...)` with no
`timeout` keyword argument. -/
def embeddingsPost (baseUrl modelName text : String) : HttpPost :=
  { url := baseUrl ++ "/api/embeddings"
    bodyModel := modelName
    bodyPrompt := text
    timeout := none }

/-- `Config.REQUEST_TIMEOUT` default (src/config.py line 25), in seconds. -/
def REQUEST_TIMEOUT : Nat := 180

/-- The `timeout` entry of `Config.get_embedding_config`
(src/config.py lines 69-76). -/
def configEmbeddingTimeout : Option Nat := some REQUEST_TIMEOUT

/-- A document as the chunker receives it: a raw text (a list of abstract
characters) and its metadata (string key-value pairs). -/
structure Doc (α : Type) where
  rawText : List α
  metadata : List (String × String)
deriving DecidableEq

/-- A chunk as produced by one chunking call over one document. -/
structure SpecChunk (α : Type) where
  id : String
  ordinal : Nat
  text : List α
  metadata : List (String × String)
deriving DecidableEq

/-- Error raised for an invalid chunking configuration. -/
inductive ChunkError where
  | invalidConfig
deriving DecidableEq

instance {ε σ : Type} [DecidableEq ε] [DecidableEq σ] : DecidableEq (Except ε σ) := fun x y =>
  match x, y with
  | .ok a, .ok b =>
    if h : a = b then .isTrue (by rw [h]) else .isFalse (fun hc => h (Except.ok.inj hc))
  | .error a, .error b =>
    if h : a = b then .isTrue (by rw [h]) else .isFalse (fun hc => h (Except.error.inj hc))
  | .ok _, .error _ => .isFalse (fun hc => Except.noConfusion hc)
  | .error _, .ok _ => .isFalse (fun hc => Except.noConfusion hc)

/-- Modelled from the spec: the sliding-window walk of the chunker
(`SimpleNodeParser` is third-party code, not in the repository).  The
window covers `size` characters and advances by `step = size − overlap`;
the walk stops when the remaining text fits in one window, so the final
chunk may be shorter than `size` and every earlier chunk is full.
`fuel` bounds the recursion; callers pass the text length, which always
suffices when `step > 0`. -/
def chunkWalk (size step : Nat) : Nat → List α → List (List α)
  | 0, text => [text]
  | fuel + 1, text =>
    if text.length ≤ size then [text]
    else text.take size :: chunkWalk size step fuel (text.drop step)

/-- Modelled from the spec: `chunk(document, size, overlap)` fails with
`InvalidConfig` if `size ≤ 0` or `overlap ≥ size`, returns the empty
sequence on empty input, and otherwise runs the sliding-window walk,
giving the chunks contiguous ordinals from 0, ids `chunk_<ordinal>`, and
the document's metadata. -/
def chunkDoc (d : Doc α) (size overlap : Nat) : Except ChunkError (List (SpecChunk α)) :=
  if size = 0 ∨ size ≤ overlap then .error .invalidConfig
  else if d.rawText.isEmpty then .ok []
  else .ok ((chunkWalk size (size - overlap) d.rawText.length d.rawText).enum.map
    (fun p => ⟨"chunk_" ++ toString p.1, p.1, p.2, d.metadata⟩))

/-- Modelled from the spec: `parser.get_nodes_from_documents` chunks each
document in order and concatenates the resulting nodes; the first failing
document's error propagates. -/
def getNodesFromDocuments (size overlap : Nat) : List (Doc α) →
    Except ChunkError (List (SpecChunk α))
  | [] => .ok []
  | d :: ds =>
    match chunkDoc d size overlap, getNodesFromDocuments size overlap ds with
    | .ok first, .ok rest => .ok (first ++ rest)
    | .error e, _ => .error e
    | .ok _, .error e => .error e

/-- A chunk dictionary as built by `DataLoaderAgent.process_documents`:
`{"id": f"chunk_<i>", "text": node.text, "metadata": node.metadata}`. -/
structure ProcessedChunk (α : Type) where
  id : String
  text : List α
  metadata : List (String × String)
deriving DecidableEq

/-- `DataLoaderAgent.process_documents` (src/agents/data_loader_agent.py,
lines 61-88): parse the documents into nodes, then enumerate ALL nodes of
the batch, giving node `i` the id `chunk_<i>`; any exception from the
parser is caught, logged, and turned into an empty result list. -/
def processDocuments (docs : List (Doc α)) (size overlap : Nat) : List (ProcessedChunk α) :=
  match getNodesFromDocuments size overlap docs with
  | .error _ => []
  | .ok nodes => nodes.enum.map (fun p => ⟨"chunk_" ++ toString p.1, p.2.text, p.2.metadata⟩)

/-- An entry of the vector index built by `QAAgent.create_index_from_chunks`:
the chunk's text, its metadata, and the vector the embedding provider
produced for it. -/
structure IndexEntry (α β : Type) where
  text : List α
  metadata : List (String × String)
  vector : List β

/-- `QAAgent.create_index_from_chunks` (src/agents/qa_agent.py, lines
124-220), primary path: each chunk becomes a `Document(text, metadata)`
and `VectorStoreIndex.from_documents` embeds document `i` through
`CustomOllamaEmbedding._get_text_embedding`, whose HTTP outcome and
pseudo-random source for call `i` are `outcomes i` and `rand i`.  No
dimension check is performed on the stored vectors. -/
def createIndexFromChunks (chunks : List (ProcessedChunk α))
    (outcomes : Nat → EmbedHttpOutcome β) (rand : Nat → Nat → β) :
    List (IndexEntry α β) :=
  chunks.enum.map (fun p => ⟨p.2.text, p.2.metadata, getTextEmbedding (outcomes p.1) (rand p.1)⟩)

/-- Python's `str.isspace` characters relevant to `str.rstrip`. -/
def pyIsSpace (c : Char) : Bool :=
  c = ' ' || c = '\t' || c = '\n' || c = '\x0d' || c = '\x0b' || c = '\x0c'

/-- Python's `s.rstrip()`: drop trailing whitespace characters. -/
def pyRstrip (s : String) : String :=
  ⟨(s.data.reverse.dropWhile pyIsSpace).reverse⟩

/-- Python's `s.endswith(t)`: `t` is a suffix of `s`. -/
def pyEndsWith (s suffix : String) : Bool :=
  suffix.data.isSuffixOf s.data

/-- The termination predicate configured in `MultiAgentManager.__init__`
(src/agents/multi_agent_manager.py line 29):
`lambda x: x.get("content", "").rstrip().endswith("TERMINATE")`. -/
def isTerminationMsg (content : String) : Bool :=
  pyEndsWith (pyRstrip content) "TERMINATE"

/-- The `max_round=50` configured on the group chat
(src/agents/multi_agent_manager.py line 42). -/
def MAX_ROUND : Nat := 50

/-- One message of the agent conversation. -/
structure ConvMessage where
  sender : String
  content : String

/-- The conversation state of the orchestration loop. -/
structure ConvState where
  messages : List ConvMessage
  round : Nat
  terminated : Bool

/-- Modelled from the spec: the group-chat turn loop itself lives in the
autogen library, outside the repository; §4.6 of the spec describes it as
a state machine.  A turn on a non-terminated state appends the message,
increments the round, and terminates when the source-configured predicate
`isTerminationMsg` fires or the round count reaches `MAX_ROUND`; a
terminated state accepts no further messages. -/
def convStep (st : ConvState) (msg : ConvMessage) : ConvState :=
  if st.terminated then st
  else
    { messages := st.messages ++ [msg]
      round := st.round + 1
      terminated := isTerminationMsg msg.content || decide (MAX_ROUND ≤ st.round + 1) }

/-- Outcome of `VectorStoreIndex.load` as observed by the caller:
either an index value, or an exception (absent path, unreadable or
corrupt directory, ...). -/
inductive LoadOutcome (ι : Type) where
  | ok (idx : ι)
  | failed (msg : String)

/-- The mutable state of a `QAAgent`: its vector index and its query
engine, each possibly uninitialized. -/
structure QAState (ι : Type) where
  index : Option ι
  queryEngine : Option ι

/-- `QAAgent._initialize_vector_store` (src/agents/qa_agent.py, lines
38-103): try to load the persisted index; on any load exception, print
the error and continue with `index = None` (no exception escapes).  When
a load succeeds, `_setup_query_engine` runs; it may itself fail
(caught), which `engineSetup` models by returning `none`. -/
def initVectorStore (load : LoadOutcome ι) (engineSetup : ι → Option ι) : QAState ι :=
  match load with
  | .ok idx => ⟨some idx, engineSetup idx⟩
  | .failed _ => ⟨none, none⟩

/-- State effect of a successful `QAAgent.create_index_from_chunks`
(src/agents/qa_agent.py, lines 124-220): the freshly built index replaces
any previous one and the query engine is set up over it. -/
def createIndexState (_st : QAState ι) (newIndex : ι) (engineSetup : ι → Option ι) : QAState ι :=
  ⟨some newIndex, engineSetup newIndex⟩

/-- The state of a `MultiAgentManager`: whether the persisted vector
store directory exists on disk, the QA agent's state, and the group
chat's message list. -/
structure ManagerState (ι : Type) where
  storeOnDisk : Bool
  qa : QAState ι
  groupchatMessages : List ConvMessage

/-- `MultiAgentManager.__init__` (src/agents/multi_agent_manager.py,
lines 13-48): builds the QA agent (which attempts an index load) and a
group chat with `messages=[]`. -/
def initManager (onDisk : Bool) (load : LoadOutcome ι) (engineSetup : ι → Option ι) :
    ManagerState ι :=
  ⟨onDisk, initVectorStore load engineSetup, []⟩

/-- State effect of a successful `MultiAgentManager.process_documents`
(src/agents/multi_agent_manager.py, lines 50-80): the QA agent builds and
persists a new index; the group chat is not touched. -/
def processDocumentsState (st : ManagerState ι) (builtIndex : ι) (engineSetup : ι → Option ι) :
    ManagerState ι :=
  ⟨true, createIndexState st.qa builtIndex engineSetup, st.groupchatMessages⟩

/-- `MultiAgentManager.ask_question` (src/agents/multi_agent_manager.py,
lines 82-110) assigns no attribute: the state is unchanged. -/
def askQuestionState (st : ManagerState ι) : ManagerState ι := st

/-- `MultiAgentManager.reset_system` (src/agents/multi_agent_manager.py,
lines 138-153): remove the vector-store directory, then re-create the QA
agent, whose index load from the now-absent path fails, leaving it with
no index and no query engine.  `self.groupchat` is not touched. -/
def resetSystem (st : ManagerState ι) : ManagerState ι :=
  ⟨false, ⟨none, none⟩, st.groupchatMessages⟩

/-- The manager states reachable through the operations the repository
actually performs on a `MultiAgentManager` (construction,
`process_documents`, `ask_question`, `reset_system`).  Nothing in the
repository ever runs the group chat, so no operation appends to
`groupchatMessages`. -/
inductive Reachable : ManagerState ι → Prop where
  | init (onDisk : Bool) (load : LoadOutcome ι) (engineSetup : ι → Option ι) :
      Reachable (initManager onDisk load engineSetup)
  | process (st : ManagerState ι) (builtIndex : ι) (engineSetup : ι → Option ι) :
      Reachable st → Reachable (processDocumentsState st builtIndex engineSetup)
  | ask (st : ManagerState ι) : Reachable st → Reachable (askQuestionState st)
  | reset (st : ManagerState ι) : Reachable st → Reachable (resetSystem st)

/-- The response object a query engine produces: the synthesized answer
text and the source nodes (text with metadata) used as context. -/
structure RagResponse where
  answer : String
  sourceNodes : List (String × List (String × String))

/-- The dictionary `QAAgent.query` / `MultiAgentManager.ask_question`
return: a `success` flag, and the answer/source/error fields present in
the respective branches. -/
structure QueryResult where
  success : Bool
  answer : Option String
  sourceNodes : List (String × List (String × String))
  error : Option String

/-- `QAAgent.query` (src/agents/qa_agent.py, lines 222-252): with no
query engine, return `success=False` with an error message; otherwise
run the engine, whose behavior is a function from the question to either
a response or a raised exception message, and wrap either outcome in a
result dictionary.  No exception escapes and no attribute is assigned. -/
def qaQuery (queryEngine : Option (String → Except String RagResponse)) (question : String) :
    QueryResult :=
  match queryEngine with
  | none => ⟨false, none, [], some "查詢引擎未初始化，請先處理文檔"⟩
  | some engine =>
    match engine question with
    | .ok resp => ⟨true, some resp.answer, resp.sourceNodes, none⟩
    | .error e => ⟨false, none, [], some ("查詢時發生錯誤：" ++ e)⟩

/-- `MultiAgentManager.ask_question` (src/agents/multi_agent_manager.py,
lines 82-110): with no query engine, return `success=False` with an
error message; otherwise delegate to `QAAgent.query` and re-wrap a
successful result, passing an unsuccessful one through.  The pair also
returns the (unchanged) index and query-engine state, mirroring that the
method assigns no attribute. -/
def askQuestion (index : Option ι)
    (queryEngine : Option (String → Except String RagResponse)) (question : String) :
    QueryResult × Option ι × Option (String → Except String RagResponse) :=
  match queryEngine with
  | none =>
    (⟨false, none, [], some "查詢引擎未初始化，請先處理文檔"⟩,
      index, queryEngine)
  | some _ =>
    let answer := qaQuery queryEngine question
    (if answer.success then ⟨true, answer.answer, answer.sourceNodes, none⟩ else answer,
      index, queryEngine)

/-! ## Helper lemmas -/

lemma npRandomRand_length (rand : Nat → β) (n : Nat) : (npRandomRand rand n).length = n := by
  simp [npRandomRand]

lemma getTextEmbedding_length (outcome : EmbedHttpOutcome β) (rand : Nat → β) :
    (getTextEmbedding outcome rand).length = providerDim outcome := by
  cases outcome with
  | response status emb =>
    by_cases h : status = 200 <;> simp [getTextEmbedding, providerDim, h, npRandomRand_length]
  | failure msg => simp [getTextEmbedding, providerDim, npRandomRand_length]

lemma getTextEmbedding_of_fallback (outcome : EmbedHttpOutcome β) (rand : Nat → β)
    (h : usedFallback outcome = true) :
    getTextEmbedding outcome rand = npRandomRand rand 384 := by
  cases outcome with
  | response status emb =>
    by_cases h200 : status = 200
    · simp [usedFallback, h200] at h
    · simp [getTextEmbedding, h200]
  | failure msg => rfl

/-! ## Claim theorems -/

/-- C1, counterexample.  The claim says every vector the provider returns,
real or fallback, has exactly dimension 384, and that fallback vectors are
marked as degraded in a caller-visible way.  A successful (status 200)
response whose `embedding` array has length 1 is returned unchanged, so a
returned vector of dimension 1 exists; and the caller-visible value of a
failed call is exactly the same bare list a 200 response carrying the same
384 numbers would produce, so no caller-visible marking exists. -/
theorem c1_counterexample :
    (getTextEmbedding (EmbedHttpOutcome.response 200 [(1 : Nat)]) (fun _ => 0)).length ≠ 384 ∧
    getTextEmbedding (EmbedHttpOutcome.failure "connection refused") (fun _ => (0 : Nat)) =
      getTextEmbedding (EmbedHttpOutcome.response 200 (npRandomRand (fun _ => (0 : Nat)) 384))
        (fun _ => 0) :=
  ⟨by decide, rfl⟩

/-- C1, amended.  Whenever the embedding HTTP call fails in any way
(non-200 status or exception), `_get_text_embedding` returns the
pseudo-random fallback vector of exactly dimension 384 instead of
propagating the failure; fallback vectors always have dimension 384.
(Vectors from successful responses are returned as-is with the
server-supplied dimension, and fallback use is only printed, not marked
in the returned value.) -/
theorem c1_fallback_dimension (outcome : EmbedHttpOutcome β) (rand : Nat → β)
    (h : usedFallback outcome = true) :
    getTextEmbedding outcome rand = npRandomRand rand 384 ∧
    (getTextEmbedding outcome rand).length = 384 := by
  refine ⟨getTextEmbedding_of_fallback outcome rand h, ?_⟩
  rw [getTextEmbedding_of_fallback outcome rand h, npRandomRand_length]

/-- C1, witness: a concrete failed call takes the fallback branch and
returns the 384 pseudo-random draws. -/
theorem c1_witness :
    usedFallback (EmbedHttpOutcome.failure "timeout" : EmbedHttpOutcome Nat) = true ∧
    getTextEmbedding (EmbedHttpOutcome.failure "timeout") (fun _ => (7 : Nat)) =
      npRandomRand (fun _ => 7) 384 :=
  ⟨rfl, (c1_fallback_dimension (EmbedHttpOutcome.failure "timeout") (fun _ => 7) rfl).1⟩

set_option maxRecDepth 100000 in
/-- C3, counterexample.  The claim says every vector stored in a given
index has the identical dimension.  Building an index from two chunks
where the first embedding call succeeds with a 2-dimensional vector and
the second one fails (taking the 384-dimensional fallback) stores vectors
of dimensions 2 and 384 in the same index; no dimension check
(`DimensionMismatch`) exists anywhere in the code. -/
theorem c3_counterexample :
    ((createIndexFromChunks
        [(⟨"chunk_0", [], []⟩ : ProcessedChunk Nat), ⟨"chunk_1", [], []⟩]
        (fun i => if i = 0 then EmbedHttpOutcome.response 200 [(5 : Nat), 6]
          else EmbedHttpOutcome.failure "timeout")
        (fun _ _ => 0)).map (fun e => e.vector.length)) = [2, 384] ∧ (2 : Nat) ≠ 384 :=
  ⟨rfl, by decide⟩

/-- C3, amended.  The vectors stored by `create_index_from_chunks` are
exactly what the embedding provider returned per chunk, with no dimension
check: when every per-chunk embedding outcome yields a `D`-dimensional
vector (the server-supplied length on success, 384 on the fallback path),
every vector stored in the index has dimension `D`; mixed outcomes can
store differing dimensions, and no `DimensionMismatch` failure exists. -/
theorem c3_uniform_dimension (chunks : List (ProcessedChunk α))
    (outcomes : Nat → EmbedHttpOutcome β) (rand : Nat → Nat → β) (D : Nat)
    (h : ∀ i, i < chunks.length → providerDim (outcomes i) = D) :
    ∀ i (hi : i < (createIndexFromChunks chunks outcomes rand).length),
      ((createIndexFromChunks chunks outcomes rand).get ⟨i, hi⟩).vector.length = D := by
  intro i hi
  have hlen : (createIndexFromChunks chunks outcomes rand).length = chunks.length := by
    simp [createIndexFromChunks]
  have hi' : i < chunks.length := hlen ▸ hi
  have : (createIndexFromChunks chunks outcomes rand).get ⟨i, hi⟩ =
      ⟨(chunks.get ⟨i, hi'⟩).text, (chunks.get ⟨i, hi'⟩).metadata,
        getTextEmbedding (outcomes i) (rand i)⟩ := by
    simp [createIndexFromChunks, List.get_eq_getElem, List.getElem_map, List.getElem_enum]
  rw [this]
  simpa [getTextEmbedding_length] using h i hi'

set_option maxRecDepth 100000 in
/-- C3, witness: a one-chunk index whose only embedding call fails stores
a single 384-dimensional vector. -/
theorem c3_witness :
    ((createIndexFromChunks [(⟨"chunk_0", [], []⟩ : ProcessedChunk Nat)]
        (fun _ => EmbedHttpOutcome.failure "down") (fun _ _ => (0 : Nat))).get
      ⟨0, by decide⟩).vector.length = 384 :=
  c3_uniform_dimension [⟨"chunk_0", [], []⟩] (fun _ => EmbedHttpOutcome.failure "down")
    (fun _ _ => 0) 384 (fun _ _ => rfl) 0 (by decide)

/-- C8.  The claim says every external HTTP call, in particular the POST
to `/api/embeddings`, carries an explicit timeout of 180 seconds by
default.  `Config.REQUEST_TIMEOUT` does default to 180 seconds and
`Config.get_embedding_config` exposes it, but the POST actually issued by
`CustomOllamaEmbedding._get_text_embedding` passes no `timeout` argument
at all, so the call can hang indefinitely: the code contradicts its own
configuration's documented intent. -/
theorem c8_embeddings_post_has_no_timeout :
    (∀ baseUrl modelName text, (embeddingsPost baseUrl modelName text).timeout = none) ∧
    REQUEST_TIMEOUT = 180 ∧ configEmbeddingTimeout = some 180 ∧
    (embeddingsPost "http://ollama:11434" "gemma:2b" "hello").timeout ≠
      configEmbeddingTimeout := by
  refine ⟨fun _ _ _ => rfl, rfl, rfl, by simp [embeddingsPost, configEmbeddingTimeout]⟩

lemma chunkWalk_zero (size step : Nat) (text : List α) :
    chunkWalk size step 0 text = [text] := rfl

lemma chunkWalk_succ_le (size step n : Nat) (text : List α) (h : text.length ≤ size) :
    chunkWalk size step (n + 1) text = [text] := by
  simp [chunkWalk, h]

lemma chunkWalk_succ_gt (size step n : Nat) (text : List α) (h : ¬ text.length ≤ size) :
    chunkWalk size step (n + 1) text =
      text.take size :: chunkWalk size step n (text.drop step) := by
  simp [chunkWalk, h]

lemma chunkWalk_ne_nil (size step fuel : Nat) (text : List α) :
    chunkWalk size step fuel text ≠ [] := by
  cases fuel with
  | zero => simp [chunkWalk]
  | succ n =>
    by_cases h : text.length ≤ size
    · simp [chunkWalk, h]
    · simp [chunkWalk, h]

lemma chunkWalk_dropLast (size step : Nat) (hstep : 0 < step) :
    ∀ (fuel : Nat) (text : List α), text.length ≤ fuel →
      ∀ l ∈ (chunkWalk size step fuel text).dropLast, l.length = size := by
  intro fuel
  induction fuel with
  | zero =>
    intro text ht l hl
    simp [chunkWalk] at hl
  | succ n ih =>
    intro text ht l hl
    by_cases hle : text.length ≤ size
    · rw [chunkWalk_succ_le size step n text hle] at hl
      simp at hl
    · rw [chunkWalk_succ_gt size step n text hle,
        List.dropLast_cons_of_ne_nil (chunkWalk_ne_nil size step n (text.drop step))] at hl
      rcases List.mem_cons.mp hl with rfl | hl'
      · simp only [List.length_take]
        omega
      · exact ih (text.drop step) (by simp only [List.length_drop]; omega) l hl'

lemma chunkDoc_ok (d : Doc α) (size overlap : Nat) (hover : overlap < size)
    (hne : ¬ d.rawText.isEmpty) :
    chunkDoc d size overlap =
      .ok ((chunkWalk size (size - overlap) d.rawText.length d.rawText).enum.map
        (fun p => ⟨"chunk_" ++ toString p.1, p.1, p.2, d.metadata⟩)) := by
  have hguard : ¬ (size = 0 ∨ size ≤ overlap) := by omega
  simp [chunkDoc, hguard, hne]

lemma chunkDoc_metadata (d : Doc α) (size overlap : Nat) (chunks : List (SpecChunk α))
    (hc : chunkDoc d size overlap = .ok chunks) :
    ∀ c ∈ chunks, c.metadata = d.metadata := by
  intro c hcmem
  by_cases hguard : size = 0 ∨ size ≤ overlap
  · simp [chunkDoc, hguard] at hc
  · by_cases hemp : d.rawText.isEmpty
    · simp [chunkDoc, hguard, hemp] at hc
      subst hc
      simp at hcmem
    · have hover : overlap < size := by omega
      rw [chunkDoc_ok d size overlap hover hemp] at hc
      have hc' := Except.ok.inj hc
      subst hc'
      rcases List.mem_map.mp hcmem with ⟨p, _, hp⟩
      rw [← hp]

lemma getNodes_metadata (size overlap : Nat) :
    ∀ (docs : List (Doc α)) (nodes : List (SpecChunk α)),
      getNodesFromDocuments size overlap docs = .ok nodes →
      ∀ c ∈ nodes, ∃ d ∈ docs, c.metadata = d.metadata := by
  intro docs
  induction docs with
  | nil =>
    intro nodes h c hc
    simp [getNodesFromDocuments] at h
    subst h
    simp at hc
  | cons d ds ih =>
    intro nodes h c hc
    cases hd : chunkDoc d size overlap with
    | error e => simp [getNodesFromDocuments, hd] at h
    | ok first =>
      cases hds : getNodesFromDocuments size overlap ds with
      | error e => simp [getNodesFromDocuments, hd, hds] at h
      | ok rest =>
        simp [getNodesFromDocuments, hd, hds] at h
        subst h
        rcases List.mem_append.mp hc with hfirst | hrest
        · exact ⟨d, List.mem_cons_self d ds, chunkDoc_metadata d size overlap first hd c hfirst⟩
        · rcases ih rest hds c hrest with ⟨d', hd', hmeta⟩
          exact ⟨d', List.mem_cons_of_mem d hd', hmeta⟩

set_option maxRecDepth 100000 in
/-- C4, counterexample.  The claim's scenario says a single 1200-character
document chunked with `size=500, overlap=100` yields 3 chunks of lengths
500, 500, 200.  The sliding window advances by `size − overlap = 400`, so
the third chunk starts at offset 800 and carries the remaining 400
characters: the lengths are 500, 500, 400, not 500, 500, 200. -/
theorem c4_counterexample :
    (chunkDoc (⟨List.replicate 1200 (), []⟩ : Doc Unit) 500 100).map
        (fun cs => cs.map (fun c => c.text.length)) = .ok [500, 500, 400] ∧
      ([500, 500, 400] : List Nat) ≠ [500, 500, 200] :=
  ⟨rfl, by decide⟩

set_option maxRecDepth 100000 in
/-- C4, amended.  For every document and configured `size > overlap ≥ 0`,
chunking walks the text in a sliding window of `size` characters
advancing by `size − overlap` per step, so chunks carry contiguous
ordinals from 0 and every chunk except the last has length exactly
`size`; in particular a single 1200-character document chunked with
`size=500, overlap=100` yields exactly 3 chunks of lengths 500, 500, 400
(not 200) with ordinals 0, 1, 2. -/
theorem c4_sliding_window (size overlap : Nat) (d : Doc α) (chunks : List (SpecChunk α))
    (hover : overlap < size) (hc : chunkDoc d size overlap = .ok chunks) :
    (∀ i (hi : i < chunks.length), (chunks.get ⟨i, hi⟩).ordinal = i) ∧
    (∀ c ∈ chunks.dropLast, c.text.length = size) ∧
    (chunkDoc (⟨List.replicate 1200 (), []⟩ : Doc Unit) 500 100).map
      (fun cs => cs.map (fun c => c.text.length)) = .ok [500, 500, 400] := by
  by_cases hemp : d.rawText.isEmpty
  · have hguard : ¬ (size = 0 ∨ size ≤ overlap) := by omega
    simp [chunkDoc, hguard, hemp] at hc
    subst hc
    refine ⟨?_, ?_, rfl⟩
    · intro i hi
      simp at hi
    · intro c hcm
      simp at hcm
  · rw [chunkDoc_ok d size overlap hover hemp] at hc
    have hc' := Except.ok.inj hc
    subst hc'
    refine ⟨?_, ?_, rfl⟩
    · intro i hi
      simp [List.get_eq_getElem, List.getElem_map, List.getElem_enum]
    · intro c hcm
      rw [← List.map_dropLast] at hcm
      rcases List.mem_map.mp hcm with ⟨p, hp, hpc⟩
      have hsnd : p.2 ∈
          (chunkWalk size (size - overlap) d.rawText.length d.rawText).dropLast := by
        have hmem : p.2 ∈ List.map Prod.snd
            ((chunkWalk size (size - overlap) d.rawText.length d.rawText).enum.dropLast) :=
          List.mem_map_of_mem Prod.snd hp
        rwa [List.map_dropLast, List.enum_map_snd] at hmem
      have hlen := chunkWalk_dropLast size (size - overlap) (by omega)
        d.rawText.length d.rawText (le_refl _) p.2 hsnd
      rw [← hpc]
      simpa using hlen

set_option maxRecDepth 100000 in
/-- C4, witness: a 5-character document chunked with `size=2, overlap=1`
yields chunks `[0,1], [1,2], [2,3], [3,4]`; the chunk at position 1 has
ordinal 1. -/
theorem c4_witness :
    (1 : Nat) < 2 ∧ (1 : Nat) < 4 ∧
    ((([(⟨"chunk_0", 0, [0, 1], []⟩ : SpecChunk Nat), ⟨"chunk_1", 1, [1, 2], []⟩,
        ⟨"chunk_2", 2, [2, 3], []⟩, ⟨"chunk_3", 3, [3, 4], []⟩]).get
      ⟨1, by decide⟩).ordinal = 1) :=
  ⟨by decide, by decide,
    (c4_sliding_window 2 1 ⟨[0, 1, 2, 3, 4], []⟩
      [⟨"chunk_0", 0, [0, 1], []⟩, ⟨"chunk_1", 1, [1, 2], []⟩,
        ⟨"chunk_2", 2, [2, 3], []⟩, ⟨"chunk_3", 3, [3, 4], []⟩]
      (by decide) (by decide)).1 1 (by decide)⟩

/-- C5, counterexample.  The claim says chunk ordinals are contiguous
starting at 0 per document.  `process_documents` enumerates the nodes of
the whole batch: two one-chunk documents processed together get ids
`chunk_0` and `chunk_1`, so the second document's only chunk has ordinal
1, not 0. -/
theorem c5_counterexample :
    (processDocuments [(⟨[0], [("doc", "1")]⟩ : Doc Nat), ⟨[1], [("doc", "2")]⟩] 500 100).map
        (fun c => c.id) = ["chunk_0", "chunk_1"] ∧ "chunk_1" ≠ "chunk_0" :=
  ⟨rfl, by decide⟩

/-- C5, amended.  Each chunk produced by `process_documents` carries the
synthesized id `chunk_<i>` where `i` is the chunk's position in the whole
batch: the ids are contiguous and strictly increasing from 0 across all
documents processed together (per batch, not per document), and each
chunk inherits the metadata of its source node, which carries its
document's metadata. -/
theorem c5_batch_ordinals (docs : List (Doc α)) (size overlap : Nat)
    (nodes : List (SpecChunk α)) (h : getNodesFromDocuments size overlap docs = .ok nodes) :
    (processDocuments docs size overlap).map (fun c => c.id)
        = (List.range nodes.length).map (fun i => "chunk_" ++ toString i) ∧
    (processDocuments docs size overlap).map (fun c => c.metadata)
        = nodes.map (fun c => c.metadata) ∧
    ∀ c ∈ nodes, ∃ d ∈ docs, c.metadata = d.metadata := by
  refine ⟨?_, ?_, getNodes_metadata size overlap docs nodes h⟩
  · simp only [processDocuments, h]
    rw [List.map_map]
    have hcomp : ((fun c => c.id) ∘ fun p : Nat × SpecChunk α =>
        (⟨"chunk_" ++ toString p.1, p.2.text, p.2.metadata⟩ : ProcessedChunk α))
        = (fun i => "chunk_" ++ toString i) ∘ Prod.fst := rfl
    rw [hcomp, ← List.map_map, List.enum_map_fst]
  · simp only [processDocuments, h]
    rw [List.map_map]
    have hcomp : ((fun c => c.metadata) ∘ fun p : Nat × SpecChunk α =>
        (⟨"chunk_" ++ toString p.1, p.2.text, p.2.metadata⟩ : ProcessedChunk α))
        = (fun c : SpecChunk α => c.metadata) ∘ Prod.snd := rfl
    rw [hcomp, ← List.map_map, List.enum_map_snd]

/-- C5, witness: a single 3-character document chunked with `size=2,
overlap=1` yields two chunks whose batch ids are `chunk_0`, `chunk_1`. -/
theorem c5_witness :
    (processDocuments [(⟨[0, 1, 2], [("k", "v")]⟩ : Doc Nat)] 2 1).map (fun c => c.id)
      = ["chunk_0", "chunk_1"] :=
  ((c5_batch_ordinals [⟨[0, 1, 2], [("k", "v")]⟩] 2 1
    [⟨"chunk_0", 0, [0, 1], [("k", "v")]⟩, ⟨"chunk_1", 1, [1, 2], [("k", "v")]⟩]
    (by decide)).1).trans (by decide)

/-- C6, counterexample.  The claim says the chunking operation fails with
`InvalidConfig` on `size ≤ 0`, surfacing the error to the caller.  The
underlying parser does fail, but `process_documents` catches every
exception and returns an empty list: a caller passing `size = 0` receives
`[]`, the same value an empty input produces, so no error reaches it. -/
theorem c6_counterexample :
    getNodesFromDocuments 0 0 [(⟨[0], []⟩ : Doc Nat)] = .error .invalidConfig ∧
    processDocuments [(⟨[(0 : Nat)], []⟩ : Doc Nat)] 0 0 = [] ∧
    processDocuments ([] : List (Doc Nat)) 500 100 = [] :=
  ⟨rfl, rfl, rfl⟩

/-- C6, amended.  Whenever `size ≤ 0` or `overlap ≥ size` and at least
one document is present, the underlying parser fails with
`InvalidConfig`, but `process_documents` catches the failure, logs it,
and returns an empty list, so the configuration error is absorbed rather
than surfaced to the caller; empty input (no documents, or an empty
document under a valid configuration) yields an empty sequence, not an
error. -/
theorem c6_invalid_config_absorbed (docs : List (Doc α)) (d : Doc α) (size overlap : Nat)
    (hbad : size = 0 ∨ overlap ≥ size) (hd : d ∈ docs) :
    getNodesFromDocuments size overlap docs = .error .invalidConfig ∧
    processDocuments docs size overlap = [] ∧
    (∀ s o : Nat, processDocuments ([] : List (Doc α)) s o = []) ∧
    (∀ (m : List (String × String)) (s o : Nat), o < s →
      chunkDoc (⟨[], m⟩ : Doc α) s o = .ok []) := by
  have herr : getNodesFromDocuments size overlap docs = .error .invalidConfig := by
    cases docs with
    | nil => simp at hd
    | cons d0 ds =>
      have hfail : chunkDoc d0 size overlap = .error .invalidConfig := by
        have hguard : size = 0 ∨ size ≤ overlap := by omega
        simp [chunkDoc, hguard]
      simp [getNodesFromDocuments, hfail]
  refine ⟨herr, ?_, ?_, ?_⟩
  · simp [processDocuments, herr]
  · intro s o
    rfl
  · intro m s o hos
    have hguard : ¬ (s = 0 ∨ s ≤ o) := by omega
    simp [chunkDoc, hguard]

/-- C6, witness: a one-document batch with `size = 0` satisfies the
invalid-configuration hypothesis and produces the empty list. -/
theorem c6_witness :
    ((0 : Nat) = 0 ∨ (0 : Nat) ≥ 0) ∧
    processDocuments [(⟨[(0 : Nat)], [("a", "b")]⟩ : Doc Nat)] 0 0 = [] :=
  ⟨Or.inl rfl,
    (c6_invalid_config_absorbed [⟨[0], [("a", "b")]⟩] ⟨[0], [("a", "b")]⟩ 0 0
      (Or.inl rfl) (List.mem_singleton.mpr rfl)).2.1⟩

/-- C2.  The conversation loop leaves `Running` for `Terminated` exactly
when the appended message's content, after stripping trailing whitespace,
ends with `"TERMINATE"` (the predicate configured on the user proxy) or
when the round count reaches the configured maximum of 50 (`max_round`
on the group chat); a non-terminated step appends exactly the one message
and increments the round; once terminated, no further message is
appended. -/
theorem c2_conversation_termination (st : ConvState) (msg : ConvMessage) :
    MAX_ROUND = 50 ∧
    (st.terminated = false →
      ((convStep st msg).terminated = true ↔
        (isTerminationMsg msg.content = true ∨ MAX_ROUND ≤ st.round + 1)) ∧
      (convStep st msg).messages = st.messages ++ [msg] ∧
      (convStep st msg).round = st.round + 1) ∧
    (st.terminated = true → convStep st msg = st) := by
  refine ⟨rfl, fun hrun => ?_, fun hterm => ?_⟩
  · simp [convStep, hrun, Bool.or_eq_true, decide_eq_true_iff]
  · simp [convStep, hterm]

/-- C2, witness: from a fresh running state, a message ending in
`"TERMINATE"` followed by trailing whitespace terminates the
conversation in one step. -/
theorem c2_witness :
    (⟨[], 0, false⟩ : ConvState).terminated = false ∧
    (convStep ⟨[], 0, false⟩ ⟨"User", "All done TERMINATE  "⟩).terminated = true :=
  ⟨rfl, ((c2_conversation_termination ⟨[], 0, false⟩
      ⟨"User", "All done TERMINATE  "⟩).2.1 rfl).1.mpr (Or.inl (by decide))⟩

/-- C7.  A failed index load (absent or unreadable path) is absorbed by
`_initialize_vector_store`: initialization completes normally with no
active index and no query engine, and a subsequent successful
`create_index_from_chunks` installs a fresh index with a query engine
over it — the system builds on demand instead of failing. -/
theorem c7_load_failure_not_fatal (msg : String) (engineSetup : ι → Option ι) :
    initVectorStore (LoadOutcome.failed msg) engineSetup = ⟨none, none⟩ ∧
    ∀ builtIndex : ι,
      (createIndexState (initVectorStore (LoadOutcome.failed msg) engineSetup) builtIndex
          (fun i => some i)).index = some builtIndex ∧
      (createIndexState (initVectorStore (LoadOutcome.failed msg) engineSetup) builtIndex
          (fun i => some i)).queryEngine = some builtIndex :=
  ⟨rfl, fun _ => ⟨rfl, rfl⟩⟩

lemma reachable_groupchat_nil (st : ManagerState ι) (h : Reachable st) :
    st.groupchatMessages = [] := by
  induction h with
  | init onDisk load engineSetup => rfl
  | process st builtIndex engineSetup hst ih => simpa [processDocumentsState] using ih
  | ask st hst ih => simpa [askQuestionState] using ih
  | reset st hst ih => simpa [resetSystem] using ih

/-- C9.  After `reset_system` on any reachable manager state, the
persisted vector store is gone, the re-initialized QA agent holds no
index and no query engine, and the recorded conversation history is
empty.  (`reset_system` itself never touches `groupchat.messages`, but no
operation the repository performs ever appends to them, so the history is
empty in every reachable state, in particular after a reset.) -/
theorem c9_reset_clears (st : ManagerState ι) (h : Reachable st) :
    (resetSystem st).storeOnDisk = false ∧
    (resetSystem st).qa.index = none ∧
    (resetSystem st).qa.queryEngine = none ∧
    (resetSystem st).groupchatMessages = [] := by
  refine ⟨rfl, rfl, rfl, ?_⟩
  simpa [resetSystem] using reachable_groupchat_nil st h

/-- C9, witness: resetting a freshly constructed manager (whose index
load failed) leaves an empty conversation history and no index. -/
theorem c9_witness :
    (resetSystem (initManager false (LoadOutcome.failed "missing") (fun i => some i) :
        ManagerState Nat)).groupchatMessages = [] ∧
    (resetSystem (initManager false (LoadOutcome.failed "missing") (fun i => some i) :
        ManagerState Nat)).qa.index = none :=
  ⟨(c9_reset_clears _ (Reachable.init false (LoadOutcome.failed "missing")
      (fun i => some i))).2.2.2,
    (c9_reset_clears _ (Reachable.init false (LoadOutcome.failed "missing")
      (fun i => some i))).2.1⟩

/-- C10.  `ask_question` is a total function: it returns a result
dictionary with a Boolean `success` for every engine behavior, including
a raising engine; it leaves the index and query-engine state unchanged;
with no query engine it returns `success = False` together with an error
message; whenever `success = False` an error message is present; and with
an engine installed, `success = True` exactly when the engine call
returns normally. -/
theorem c10_ask_question_total (index : Option ι)
    (queryEngine : Option (String → Except String RagResponse)) (question : String) :
    ((askQuestion index queryEngine question).2 = (index, queryEngine)) ∧
    (queryEngine = none →
      (askQuestion index queryEngine question).1.success = false ∧
      ((askQuestion index queryEngine question).1.error).isSome = true) ∧
    ((askQuestion index queryEngine question).1.success = false →
      ((askQuestion index queryEngine question).1.error).isSome = true) ∧
    (∀ engine, queryEngine = some engine →
      ((askQuestion index queryEngine question).1.success = true ↔
        ∃ resp, engine question = Except.ok resp)) := by
  cases queryEngine with
  | none =>
    refine ⟨rfl, fun _ => ⟨rfl, rfl⟩, fun _ => rfl, fun engine h => ?_⟩
    exact absurd h (by simp)
  | some engine =>
    cases hq : engine question with
    | ok resp =>
      refine ⟨rfl, fun h => by simp at h, fun h => ?_, fun engine' h => ?_⟩
      · simp [askQuestion, qaQuery, hq] at h
      · have he : engine' = engine := (Option.some.inj h).symm
        subst he
        simp [askQuestion, qaQuery, hq]
    | error e =>
      refine ⟨rfl, fun h => by simp at h, fun _ => ?_, fun engine' h => ?_⟩
      · simp [askQuestion, qaQuery, hq]
      · have he : engine' = engine := (Option.some.inj h).symm
        subst he
        simp [askQuestion, qaQuery, hq]

/-- C10, witness: asking a question with no query engine returns
`success = False` and an error message, leaving the state unchanged. -/
theorem c10_witness :
    (askQuestion (none : Option Nat) none "hello").1.success = false ∧
    ((askQuestion (none : Option Nat) none "hello").1.error).isSome = true ∧
    (askQuestion (none : Option Nat) none "hello").2 = (none, none) :=
  ⟨((c10_ask_question_total none none "hello").2.1 rfl).1,
    ((c10_ask_question_total none none "hello").2.1 rfl).2,
    (c10_ask_question_total none none "hello").1⟩

end RagQA
